import Mathlib

/-!
Verification development for the maritime Route Risk Evaluation & Ranking
Engine (backend/agents/forecast_agent.py, backend/tools/route_calculator.py,
backend/tools/weather_forecast.py, backend/tools/maritime_traffic.py,
backend/agents/news_analyzer_agent.py).

Modelling conventions, used uniformly below:
* Python floats are modelled as exact rationals (ℚ); the display-only
  roundings `round(x, k)` that the source applies when building result
  dictionaries are modelled as the identity.
* Severity / risk / congestion strings "Low" / "Medium" / "High" /
  "Critical" are modelled by the enumeration `Level`.
* Calls to the pseudo-random source (`random.randint`, `random.uniform`,
  `random.choice`, `random.choices`) are modelled by explicit draw
  parameters; where a property depends on the documented range of a draw
  that range appears as a hypothesis.
* Calendar dates are modelled as integer day offsets; the source builds
  `departure + timedelta(hours=cumulative_hours)` from a midnight
  `datetime` and passes `strftime("%Y-%m-%d")` to the simulators, which is
  the day offset `⌊cumulative_hours / 24⌋` from the departure day.
* A Python statement that raises (`ZeroDivisionError` on an empty
  coordinate list) is modelled with `Except String`.
-/

namespace Spec2Proof

/-- Ordinal severity tier used across weather, traffic and event factors. -/
inductive Level where
  | low
  | medium
  | high
  | critical
deriving DecidableEq, Repr

/-- Python `int(q)`: truncation toward zero of a rational. -/
def truncQ (q : ℚ) : ℤ := if 0 ≤ q then ⌊q⌋ else ⌈q⌉

/-! ## Multi-route scorer (`ForecastAgent._score_routes`)

The scorer consumes, for each analyzed route, exactly the fields
`distance_nm`, `time_calculation["total_time_hours"]`,
`weather_analysis["overall_risk"]`, `traffic_analysis["overall_congestion"]`
and `news_analysis["overall_risk_assessment"]`; `RouteAnalysis` carries
those fields. -/

structure RouteAnalysis where
  route_id : String
  distance_nm : ℚ
  total_time_hours : ℚ
  weather_risk : Level
  traffic_congestion : Level
  news_risk : Level
deriving DecidableEq, Repr

/-- Python `min(f(a) for a in l)` for a non-empty `l` (the scorer only
evaluates it for non-empty candidate sets; the empty case is given the
junk value 0). -/
def listMinD (f : RouteAnalysis → ℚ) : List RouteAnalysis → ℚ
  | [] => 0
  | x :: xs => xs.foldl (fun m a => min m (f a)) (f x)

/-- `distance_penalty = (analysis.distance_nm - base_distance) / base_distance * 10`
with `base_distance = min(a["distance_nm"] for a in route_analyses)`. -/
def distancePenalty (l : List RouteAnalysis) (a : RouteAnalysis) : ℚ :=
  (a.distance_nm - listMinD (fun b => b.distance_nm) l)
    / listMinD (fun b => b.distance_nm) l * 10

/-- `time_penalty = (analysis.total_time_hours - base_time) / base_time * 15`
with `base_time = min(a["time_calculation"]["total_time_hours"] for a in route_analyses)`. -/
def timePenalty (l : List RouteAnalysis) (a : RouteAnalysis) : ℚ :=
  (a.total_time_hours - listMinD (fun b => b.total_time_hours) l)
    / listMinD (fun b => b.total_time_hours) l * 15

/-- Weather risk penalty: 20 for High, 10 for Medium, otherwise 0. -/
def weatherPenalty (a : RouteAnalysis) : ℚ :=
  match a.weather_risk with
  | .high => 20
  | .medium => 10
  | _ => 0

/-- Traffic congestion penalty: 15 for High, 7 for Medium, otherwise 0. -/
def trafficPenalty (a : RouteAnalysis) : ℚ :=
  match a.traffic_congestion with
  | .high => 15
  | .medium => 7
  | _ => 0

/-- News event penalty: 30 for Critical, 20 for High, 10 for Medium, otherwise 0. -/
def eventPenalty (a : RouteAnalysis) : ℚ :=
  match a.news_risk with
  | .critical => 30
  | .high => 20
  | .medium => 10
  | _ => 0

/-- `analysis["route_score"] = max(0, 100 - distance_penalty - time_penalty
- weather_penalty - traffic_penalty - event_penalty)`. -/
def routeScore (l : List RouteAnalysis) (a : RouteAnalysis) : ℚ :=
  max 0 (100 - distancePenalty l a - timePenalty l a - weatherPenalty a
    - trafficPenalty a - eventPenalty a)

lemma foldl_min_le_init (f : RouteAnalysis → ℚ) (xs : List RouteAnalysis) (m : ℚ) :
    xs.foldl (fun m a => min m (f a)) m ≤ m := by
  induction xs generalizing m with
  | nil => simp
  | cons x xs ih =>
      simpa using le_trans (ih (min m (f x))) (min_le_left _ _)

lemma foldl_min_le_mem (f : RouteAnalysis → ℚ) :
    ∀ (xs : List RouteAnalysis) (m : ℚ) (a : RouteAnalysis), a ∈ xs →
      xs.foldl (fun m a => min m (f a)) m ≤ f a := by
  intro xs
  induction xs with
  | nil => intro m a ha; cases ha
  | cons x xs ih =>
      intro m a ha
      rcases List.mem_cons.mp ha with h | h
      · subst h
        exact le_trans (foldl_min_le_init f xs (min m (f a))) (min_le_right _ _)
      · exact ih (min m (f x)) a h

lemma le_foldl_min (f : RouteAnalysis → ℚ) (xs : List RouteAnalysis) (m c : ℚ)
    (hm : c ≤ m) (h : ∀ a ∈ xs, c ≤ f a) :
    c ≤ xs.foldl (fun m a => min m (f a)) m := by
  induction xs generalizing m with
  | nil => simpa using hm
  | cons x xs ih =>
      refine ih (min m (f x)) (le_min hm (h x (List.mem_cons_self x xs)))
        (fun a ha => h a (List.mem_cons_of_mem x ha))

lemma lt_foldl_min (f : RouteAnalysis → ℚ) (xs : List RouteAnalysis) (m c : ℚ)
    (hm : c < m) (h : ∀ a ∈ xs, c < f a) :
    c < xs.foldl (fun m a => min m (f a)) m := by
  induction xs generalizing m with
  | nil => simpa using hm
  | cons x xs ih =>
      refine ih (min m (f x)) (lt_min hm (h x (List.mem_cons_self x xs)))
        (fun a ha => h a (List.mem_cons_of_mem x ha))

lemma listMinD_le (f : RouteAnalysis → ℚ) (l : List RouteAnalysis)
    (a : RouteAnalysis) (ha : a ∈ l) : listMinD f l ≤ f a := by
  cases l with
  | nil => cases ha
  | cons x xs =>
      rcases List.mem_cons.mp ha with h | h
      · subst h; exact foldl_min_le_init f xs (f a)
      · exact foldl_min_le_mem f xs (f x) a h

lemma listMinD_pos (f : RouteAnalysis → ℚ) (l : List RouteAnalysis)
    (hne : l ≠ []) (h : ∀ a ∈ l, 0 < f a) : 0 < listMinD f l := by
  cases l with
  | nil => exact absurd rfl hne
  | cons x xs =>
      exact lt_foldl_min f xs (f x) 0 (h x (List.mem_cons_self x xs))
        (fun a ha => h a (List.mem_cons_of_mem x ha))

lemma distancePenalty_nonneg (l : List RouteAnalysis) (a : RouteAnalysis)
    (ha : a ∈ l) (hd : ∀ b ∈ l, 0 < b.distance_nm) :
    0 ≤ distancePenalty l a := by
  unfold distancePenalty
  have hmin : 0 < listMinD (fun b => b.distance_nm) l :=
    listMinD_pos _ l (by rintro rfl; cases ha) hd
  have hle : listMinD (fun b => b.distance_nm) l ≤ a.distance_nm :=
    listMinD_le _ l a ha
  have : 0 ≤ (a.distance_nm - listMinD (fun b => b.distance_nm) l)
      / listMinD (fun b => b.distance_nm) l :=
    div_nonneg (by linarith) (le_of_lt hmin)
  linarith

lemma timePenalty_nonneg (l : List RouteAnalysis) (a : RouteAnalysis)
    (ha : a ∈ l) (ht : ∀ b ∈ l, 0 < b.total_time_hours) :
    0 ≤ timePenalty l a := by
  unfold timePenalty
  have hmin : 0 < listMinD (fun b => b.total_time_hours) l :=
    listMinD_pos _ l (by rintro rfl; cases ha) ht
  have hle : listMinD (fun b => b.total_time_hours) l ≤ a.total_time_hours :=
    listMinD_le _ l a ha
  have : 0 ≤ (a.total_time_hours - listMinD (fun b => b.total_time_hours) l)
      / listMinD (fun b => b.total_time_hours) l :=
    div_nonneg (by linarith) (le_of_lt hmin)
  linarith

lemma weatherPenalty_nonneg (a : RouteAnalysis) : 0 ≤ weatherPenalty a := by
  unfold weatherPenalty; cases a.weather_risk <;> norm_num

lemma trafficPenalty_nonneg (a : RouteAnalysis) : 0 ≤ trafficPenalty a := by
  unfold trafficPenalty; cases a.traffic_congestion <;> norm_num

lemma eventPenalty_nonneg (a : RouteAnalysis) : 0 ≤ eventPenalty a := by
  unfold eventPenalty; cases a.news_risk <;> norm_num

/-- C1: for every non-empty candidate set with positive distances and times,
each route's total score equals
`max(0, 100 - distance_penalty - time_penalty - weather_penalty -
traffic_penalty - event_penalty)` with the penalties exactly as in
`_score_routes` (distance/time penalties relative to the set minima, the
categorical penalties 20/10/0, 15/7/0 and 30/20/10/0); consequently
`0 ≤ total_score ≤ 100`, and a candidate attaining the minimum distance has
`distance_penalty = 0`. -/
theorem score_formula_bounds_and_baseline (l : List RouteAnalysis)
    (a : RouteAnalysis) (ha : a ∈ l)
    (hd : ∀ b ∈ l, 0 < b.distance_nm)
    (ht : ∀ b ∈ l, 0 < b.total_time_hours) :
    routeScore l a =
      max 0 (100 - distancePenalty l a - timePenalty l a - weatherPenalty a
        - trafficPenalty a - eventPenalty a)
    ∧ 0 ≤ routeScore l a ∧ routeScore l a ≤ 100
    ∧ (a.distance_nm = listMinD (fun b => b.distance_nm) l →
        distancePenalty l a = 0) := by
  refine ⟨rfl, le_max_left _ _, ?_, ?_⟩
  · have h1 := distancePenalty_nonneg l a ha hd
    have h2 := timePenalty_nonneg l a ha ht
    have h3 := weatherPenalty_nonneg a
    have h4 := trafficPenalty_nonneg a
    have h5 := eventPenalty_nonneg a
    have : 100 - distancePenalty l a - timePenalty l a - weatherPenalty a
        - trafficPenalty a - eventPenalty a ≤ 100 := by linarith
    exact max_le (by norm_num) this
  · intro hmin
    unfold distancePenalty
    rw [← hmin]
    simp

/-- Concrete witness for the scorer theorem: a singleton candidate set with
distance 3000 nm and total time 150 h, all factors Low, scores 100. -/
theorem score_formula_bounds_witness :
    0 ≤ routeScore [⟨"R_001", 3000, 150, .low, .low, .low⟩]
        ⟨"R_001", 3000, 150, .low, .low, .low⟩
    ∧ routeScore [⟨"R_001", 3000, 150, .low, .low, .low⟩]
        ⟨"R_001", 3000, 150, .low, .low, .low⟩ ≤ 100 :=
  ⟨(score_formula_bounds_and_baseline _ _ (by simp) (by decide) (by decide)).2.1,
   (score_formula_bounds_and_baseline _ _ (by simp) (by decide) (by decide)).2.2.1⟩

/-! ## Ranking order (`route_analyses.sort(key=..., reverse=True)`)

`_score_routes` sorts the analyses in place with
`route_analyses.sort(key=lambda x: x["route_score"], reverse=True)`.
Python guarantees a stable sort: the result is ordered by score descending
and elements with equal scores keep their original relative order.  That is
modelled by a stable insertion sort on `(analysis, score)` pairs: a new
element is placed after every already-placed element of score ≥ its own. -/

/-- Stable descending insertion into a (descending-)sorted accumulator. -/
def insertScored (x : RouteAnalysis × ℚ) :
    List (RouteAnalysis × ℚ) → List (RouteAnalysis × ℚ)
  | [] => [x]
  | y :: ys => if x.2 ≤ y.2 then y :: insertScored x ys else x :: y :: ys

/-- Stable sort by score descending, processing elements in list order. -/
def sortScoredDesc (l : List (RouteAnalysis × ℚ)) : List (RouteAnalysis × ℚ) :=
  l.foldl (fun acc x => insertScored x acc) []

/-- `_score_routes`: attach `route_score` to each analysis, then sort by
score descending (stable). -/
def scoreRoutes (l : List RouteAnalysis) : List (RouteAnalysis × ℚ) :=
  sortScoredDesc (l.map (fun a => (a, routeScore l a)))

/-- Sortedness by score descending. -/
def ScoreSorted (r : List (RouteAnalysis × ℚ)) : Prop :=
  r.Pairwise (fun p q => q.2 ≤ p.2)

lemma mem_insertScored (x z : RouteAnalysis × ℚ) :
    ∀ acc, z ∈ insertScored x acc ↔ z = x ∨ z ∈ acc := by
  intro acc
  induction acc with
  | nil => simp [insertScored]
  | cons y ys ih =>
      by_cases h : x.2 ≤ y.2
      · simp only [insertScored, if_pos h, List.mem_cons, ih]
        tauto
      · simp only [insertScored, if_neg h, List.mem_cons]

lemma insertScored_sorted (x : RouteAnalysis × ℚ) :
    ∀ acc, ScoreSorted acc → ScoreSorted (insertScored x acc) := by
  intro acc
  induction acc with
  | nil => intro _; simp [insertScored, ScoreSorted]
  | cons y ys ih =>
      intro hs
      rw [ScoreSorted, List.pairwise_cons] at hs
      by_cases hxy : x.2 ≤ y.2
      · simp only [insertScored, if_pos hxy]
        refine List.pairwise_cons.mpr ⟨?_, ih hs.2⟩
        intro z hz
        rcases (mem_insertScored x z ys).mp hz with h | h
        · subst h; exact hxy
        · exact hs.1 z h
      · push_neg at hxy
        simp only [insertScored, if_neg (not_le.mpr hxy)]
        refine List.pairwise_cons.mpr ⟨?_, List.pairwise_cons.mpr hs⟩
        intro z hz
        rcases List.mem_cons.mp hz with h | h
        · subst h; exact le_of_lt hxy
        · exact le_trans (hs.1 z h) (le_of_lt hxy)

lemma insertScored_filter_of_sorted (x : RouteAnalysis × ℚ) (s : ℚ) :
    ∀ acc, ScoreSorted acc →
      (insertScored x acc).filter (fun p => p.2 == s)
        = if x.2 = s then acc.filter (fun p => p.2 == s) ++ [x]
          else acc.filter (fun p => p.2 == s) := by
  intro acc
  induction acc with
  | nil =>
      intro _
      by_cases hx : x.2 = s <;>
        simp [insertScored, List.filter_cons, beq_iff_eq, hx]
  | cons y ys ih =>
      intro hs
      rw [ScoreSorted, List.pairwise_cons] at hs
      by_cases hxy : x.2 ≤ y.2
      · simp only [insertScored, if_pos hxy, List.filter_cons, ih hs.2]
        by_cases hy : y.2 = s <;> by_cases hx : x.2 = s <;>
          simp [beq_iff_eq, hy, hx]
      · push_neg at hxy
        by_cases hx : x.2 = s
        · have hy : ¬ y.2 = s := by
            intro hys
            rw [hys, hx] at hxy
            exact lt_irrefl _ hxy
          have hysnil : ys.filter (fun p => p.2 == s) = [] := by
            refine List.filter_eq_nil_iff.mpr ?_
            intro z hz
            have hzlt : z.2 < x.2 := lt_of_le_of_lt (hs.1 z hz) hxy
            simp only [beq_iff_eq]
            intro hzs
            rw [hzs, hx] at hzlt
            exact lt_irrefl _ hzlt
          have hcond : ¬ x.2 ≤ y.2 := not_le.mpr hxy
          simp only [insertScored, if_neg hcond, List.filter_cons]
          simp [beq_iff_eq, hx, hy, hysnil]
        · have hcond : ¬ x.2 ≤ y.2 := not_le.mpr hxy
          simp only [insertScored, if_neg hcond, List.filter_cons]
          simp [beq_iff_eq, hx]

lemma sortScoredDesc_spec :
    ∀ (l acc : List (RouteAnalysis × ℚ)), ScoreSorted acc →
      ScoreSorted (l.foldl (fun acc x => insertScored x acc) acc)
      ∧ ∀ s : ℚ,
          (l.foldl (fun acc x => insertScored x acc) acc).filter
              (fun p => p.2 == s)
            = acc.filter (fun p => p.2 == s) ++ l.filter (fun p => p.2 == s) := by
  intro l
  induction l with
  | nil => intro acc h; exact ⟨h, fun s => by simp⟩
  | cons x xs ih =>
      intro acc h
      have hins : ScoreSorted (insertScored x acc) := insertScored_sorted x acc h
      have hih := ih (insertScored x acc) hins
      refine ⟨hih.1, fun s => ?_⟩
      have h2 := hih.2 s
      simp only [List.foldl_cons] at h2 ⊢
      rw [h2, insertScored_filter_of_sorted x s acc h, List.filter_cons]
      by_cases hx : x.2 = s <;> simp [hx]

/-- C3 (amended): the ranking produced by `_score_routes` is ordered by
`total_score` descending, and candidates with equal scores keep their
original relative order (Python's sort is stable, expressed here as: for
every score value, filtering the ranking to that score yields the same list
as filtering the input, in input order).  No distance or route-id tie-break
is applied. -/
theorem ranking_sorted_descending_and_stable (l : List RouteAnalysis) :
    ScoreSorted (scoreRoutes l)
    ∧ ∀ s : ℚ, (scoreRoutes l).filter (fun p => p.2 == s)
        = (l.map (fun a => (a, routeScore l a))).filter (fun p => p.2 == s) := by
  have h := sortScoredDesc_spec (l.map (fun a => (a, routeScore l a))) []
    (by simp [ScoreSorted])
  exact ⟨h.1, fun s => by simpa using h.2 s⟩

/-- The ordering that the specification asserts for a Ranking: score
descending, ties broken by ascending distance, further ties by route-id
lexical order.  Stated from the spec's words, for comparison with the
behaviour of `scoreRoutes`. -/
def rankingTieBreakSpec (r : List (RouteAnalysis × ℚ)) : Prop :=
  r.Pairwise (fun p q =>
    q.2 < p.2 ∨ (p.2 = q.2 ∧ (p.1.distance_nm < q.1.distance_nm
      ∨ (p.1.distance_nm = q.1.distance_nm ∧ ¬ q.1.route_id < p.1.route_id))))

/-- First candidate of the C3 counterexample: 3300 nm, 150 h, all Low.
Its score is `100 − 1 − 0 = 99`. -/
def tieRoute1 : RouteAnalysis := ⟨"route_1", 3300, 150, .low, .low, .low⟩

/-- Second candidate of the C3 counterexample: 3000 nm, 160 h, all Low.
Its score is `100 − 0 − 1 = 99`. -/
def tieRoute2 : RouteAnalysis := ⟨"route_2", 3000, 160, .low, .low, .low⟩

/-- C3 counterexample: two candidates score exactly 99 each, with the
3300 nm candidate listed first.  The stable sort keeps it first, so the
tie is NOT broken by ascending `total_distance_nm` (which would put the
3000 nm candidate first): the claimed ordering predicate fails on the
produced ranking. -/
theorem ranking_tiebreak_counterexample :
    ¬ rankingTieBreakSpec (scoreRoutes [tieRoute1, tieRoute2]) := by
  have hEval : scoreRoutes [tieRoute1, tieRoute2]
      = [(tieRoute1, 99), (tieRoute2, 99)] := by
    norm_num [scoreRoutes, sortScoredDesc, insertScored, routeScore,
      distancePenalty, timePenalty, weatherPenalty, trafficPenalty,
      eventPenalty, listMinD, tieRoute1, tieRoute2]
  rw [rankingTieBreakSpec, hEval]
  simp only [List.pairwise_cons, List.mem_singleton, List.not_mem_nil]
  intro h
  have h1 := (h.1 (tieRoute2, 99) rfl)
  rcases h1 with h1 | h1
  · exact lt_irrefl _ h1
  · rcases h1.2 with h2 | h2
    · norm_num [tieRoute1, tieRoute2] at h2
    · norm_num [tieRoute1, tieRoute2] at h2

/-! ## Route time calculation (`calculate_route_time` and its invocation
in `_analyze_single_route`) -/

/-- Result record of `calculate_route_time` (display roundings omitted). -/
structure TimeCalc where
  base_time_hours : ℚ
  weather_delay_hours : ℚ
  traffic_delay_hours : ℚ
  total_time_hours : ℚ
  total_time_days : ℚ
  effective_speed_knots : ℚ
deriving DecidableEq, Repr

/-- `calculate_route_time(route, vessel_speed_knots, weather_impact,
traffic_impact)`.  `weatherImpact` models the optional dict
`{"average_wind_speed": w}`; `trafficImpact` models the optional dict
`{"congestion_level": lv}` (`congestion_factor` is 0.1 for "High" and 0.05
for anything else). -/
def calculateRouteTime (totalDistance speed : ℚ)
    (weatherImpact : Option ℚ) (trafficImpact : Option Level) : TimeCalc :=
  let base := totalDistance / speed
  let wd := match weatherImpact with
    | some w => base * (w / 100)
    | none => 0
  let td := match trafficImpact with
    | some lv => base * (if lv = .high then 1/10 else 1/20)
    | none => 0
  let total := base + wd + td
  ⟨base, wd, td, total, total / 24, totalDistance / total⟩

/-- The call made by `_analyze_single_route`: weather impact is the fixed
dict `{"average_wind_speed": 15}` when `total_weather_risk > 1` (else
`None`), traffic impact is the fixed dict `{"congestion_level": "High"}`
when `total_traffic_congestion > 1` (else `None`). -/
def analyzeTimeCalc (totalDistance speed : ℚ) (riskSegs congSegs : ℕ) : TimeCalc :=
  calculateRouteTime totalDistance speed
    (if riskSegs > 1 then some 15 else none)
    (if congSegs > 1 then some .high else none)

/-- C2 (amended): for every analyzed route,
`total_time_hours = base + weather_delay + traffic_delay` with
`base = total_distance / base_speed`, where `weather_delay = base × 15/100`
(a hard-coded average wind speed of 15, regardless of the route's actual
winds) exactly when more than one segment is flagged Medium/High weather
risk, and `traffic_delay = base × 0.10` whenever more than one segment is
congested — regardless of whether the route-level congestion is Medium or
High, because `_analyze_single_route` always passes
`{"congestion_level": "High"}`. -/
theorem analyze_total_time_closed_form (d s : ℚ) (riskSegs congSegs : ℕ) :
    (analyzeTimeCalc d s riskSegs congSegs).total_time_hours =
      d / s + (if riskSegs > 1 then (d / s) * (15 / 100) else 0)
        + (if congSegs > 1 then (d / s) * (1 / 10) else 0) := by
  unfold analyzeTimeCalc calculateRouteTime
  by_cases h1 : riskSegs > 1 <;> by_cases h2 : congSegs > 1 <;>
    simp [h1, h2]

/-- The total-time formula that the claim asserts, stated from the spec's
words: `weather_delay = base_time × (avg_wind/100)` with `avg_wind` the
route's average wind speed, and `traffic_delay = base_time × 0.10` when the
route's congestion level is High or `× 0.05` when it is Medium. -/
def claimTotalTime (d s avgWind : ℚ) (riskSegs congSegs : ℕ)
    (congLevel : Level) : ℚ :=
  d / s + (if riskSegs > 1 then (d / s) * (avgWind / 100) else 0)
    + (if congSegs > 1 then
        (if congLevel = .high then (d / s) * (1 / 10)
         else if congLevel = .medium then (d / s) * (1 / 20) else 0)
      else 0)

/-- C2 counterexample: the code disagrees with the claimed formula on both
counts.  (1) A 3000 nm route at 20 kt whose average wind speed is 30 kt
with 2 risk-flagged segments: the code yields 172.5 h (fixed wind 15),
the claim yields 195 h.  (2) The same route with 2 Medium-congested
segments (route congestion "Medium") and no weather risk: the code yields
165 h (factor 0.10), the claim yields 157.5 h (factor 0.05). -/
theorem analyze_total_time_counterexample :
    (analyzeTimeCalc 3000 20 2 0).total_time_hours
        ≠ claimTotalTime 3000 20 30 2 0 Level.low
    ∧ (analyzeTimeCalc 3000 20 0 2).total_time_hours
        ≠ claimTotalTime 3000 20 0 0 2 Level.medium := by
  have hne : Level.medium ≠ Level.high := by decide
  constructor <;>
    norm_num [analyzeTimeCalc, calculateRouteTime, claimTotalTime, hne]

/-! ## Scenario A (spec §8) -/

/-- Scenario A candidate 1: 3000 nm at 20 kt, all factors Low; its total
time comes through `calculate_route_time` with no impacts. -/
def scenarioA1 : RouteAnalysis :=
  ⟨"route_1", 3000, (analyzeTimeCalc 3000 20 0 0).total_time_hours,
    .low, .low, .low⟩

/-- Scenario A candidate 2: 3300 nm at the same 20 kt, all factors Low. -/
def scenarioA2 : RouteAnalysis :=
  ⟨"route_2", 3300, (analyzeTimeCalc 3300 20 0 0).total_time_hours,
    .low, .low, .low⟩

/-- C7 counterexample: the scorer does NOT give candidate 2 the claimed
score `100 − ((3300−3000)/3000×10) = 99`; because the two candidates sail
at equal speed, candidate 2 also incurs a time penalty of 1.5, scoring
97.5. -/
theorem scenarioA_counterexample :
    routeScore [scenarioA1, scenarioA2] scenarioA2
      ≠ 100 - (3300 - 3000) / 3000 * 10 := by
  norm_num [routeScore, distancePenalty, timePenalty, weatherPenalty,
    trafficPenalty, eventPenalty, listMinD, scenarioA1, scenarioA2,
    analyzeTimeCalc, calculateRouteTime]

/-- C7 (amended): in Scenario A the scorer yields candidate 1 at score 100
and candidate 2 at `100 − distance_penalty 1.0 − time_penalty 1.5 = 97.5`
(equal speeds make total time proportional to distance, so candidate 2
also pays the relative time penalty), and candidate 1 ranks first. -/
theorem scenarioA_scores_and_ranking :
    routeScore [scenarioA1, scenarioA2] scenarioA1 = 100
    ∧ routeScore [scenarioA1, scenarioA2] scenarioA2 = 195 / 2
    ∧ (scoreRoutes [scenarioA1, scenarioA2]).map (fun p => p.1.route_id)
        = ["route_1", "route_2"] := by
  refine ⟨?_, ?_, ?_⟩ <;>
    norm_num [scoreRoutes, sortScoredDesc, insertScored, routeScore,
      distancePenalty, timePenalty, weatherPenalty, trafficPenalty,
      eventPenalty, listMinD, scenarioA1, scenarioA2, analyzeTimeCalc,
      calculateRouteTime]

/-! ## Geometry, enrichment and segmentation
(`find_routes_between_ports` in route_calculator.py)

The haversine distance is transcendental (sin/cos/asin); segmentation and
waypoint counting are independent of the metric, so the pairwise distance
function is a parameter `d` below, instantiated with a concrete stand-in
in closed statements. -/

/-- A resolved waypoint row (`waypoint_id`, `type`, `latitude`,
`longitude`, `port_name`). -/
structure Waypoint where
  waypoint_id : String
  typ : String
  latitude : ℚ
  longitude : ℚ
  port_name : Option String
deriving DecidableEq, Repr

/-- The `np` interpolated waypoints inserted between `start` and `stop`:
for `j = 1..np`, `fraction = j/(np+1)` and linear interpolation in
latitude/longitude; id `f"{start_id}_int_{j}"`, type `"Intermediate"`,
no port name. -/
def interpolatePoints (np : ℕ) (start stop : Waypoint) : List Waypoint :=
  (List.range np).map (fun (j : ℕ) =>
    let frac : ℚ := ((j : ℚ) + 1) / ((np : ℚ) + 1)
    { waypoint_id := start.waypoint_id ++ "_int_" ++ toString (j + 1)
      typ := "Intermediate"
      latitude := start.latitude + frac * (stop.latitude - start.latitude)
      longitude := start.longitude + frac * (stop.longitude - start.longitude)
      port_name := none })

/-- The enrichment loop body: for each consecutive pair, append the
interpolated points and then the pair's endpoint (`prev` is the pair's
start, already emitted). -/
def enrichLoop (np : ℕ) : Waypoint → List Waypoint → List Waypoint
  | _, [] => []
  | prev, w :: ws => interpolatePoints np prev w ++ w :: enrichLoop np w ws

/-- Waypoint enrichment: routes with at least 4 waypoints are unchanged;
shorter routes get `num_points = max(1, 4 - waypoint_count)` interpolated
points per consecutive pair (the count is taken from the original list).
The `< 2` case is dropped by the caller before this runs. -/
def enrich (l : List Waypoint) : List Waypoint :=
  if 4 ≤ l.length then l
  else
    match l with
    | [] => []
    | w :: ws => w :: enrichLoop (max 1 (4 - l.length)) w ws

/-- Sum of consecutive pairwise distances along a waypoint list
(0 for an empty or single-waypoint list). -/
def pathDistance (d : Waypoint → Waypoint → ℚ) : List Waypoint → ℚ
  | [] => 0
  | [_] => 0
  | a :: b :: rest => d a b + pathDistance d (b :: rest)

/-- A route segment: id, waypoint slice, representative coordinates and
the summed pairwise distance of the slice. -/
structure Segment where
  segment_id : String
  waypoints : List Waypoint
  coordinates : List (ℚ × ℚ)
  distance_nm : ℚ
deriving DecidableEq, Repr

/-- The slicing loop `for i in range(0, len(wps), pps): wps[i:i+pps]`:
successive chunks of size `pps` (the final chunk may be shorter; since the
loop steps by exactly `pps`, every produced slice is non-empty). -/
def chunkWaypoints (pps : ℕ) : List Waypoint → List (List Waypoint)
  | [] => []
  | w :: ws => (w :: ws.take (pps - 1)) :: chunkWaypoints pps (ws.drop (pps - 1))
termination_by l => l.length
decreasing_by
  simp only [List.length_drop, List.length_cons]
  omega

/-- Segment construction in `find_routes_between_ports`:
`points_per_segment = max(1, waypoint_count // 4)`, slices of that size,
ids `f"{route_id}_seg_{k}"` (1-based), coordinates the slice's lat/lon
pairs and `distance_nm` the summed pairwise distance within the slice. -/
def makeSegments (d : Waypoint → Waypoint → ℚ) (routeId : String)
    (l : List Waypoint) : List Segment :=
  let pps := max 1 (l.length / 4)
  (chunkWaypoints pps l).enum.map (fun p =>
    { segment_id := routeId ++ "_seg_" ++ toString (p.1 + 1)
      waypoints := p.2
      coordinates := p.2.map (fun w => (w.latitude, w.longitude))
      distance_nm := pathDistance d p.2 })

lemma chunkWaypoints_ne_nil (pps : ℕ) :
    ∀ (l : List Waypoint), ∀ c ∈ chunkWaypoints pps l, c ≠ [] := by
  intro l
  induction l using chunkWaypoints.induct pps with
  | case1 => intro c hc; rw [chunkWaypoints] at hc; cases hc
  | case2 w ws ih =>
      intro c hc
      rw [chunkWaypoints] at hc
      rcases List.mem_cons.mp hc with h | h
      · subst h; exact List.cons_ne_nil _ _
      · exact ih c h

/-- C6 (amended): every segment produced by segmentation is non-empty
(contains at least one waypoint); segments are NOT guaranteed two
waypoints — see the counterexample. -/
theorem segmentation_segments_nonempty (d : Waypoint → Waypoint → ℚ)
    (rid : String) (l : List Waypoint) :
    ∀ s ∈ makeSegments d rid l, 1 ≤ s.waypoints.length := by
  intro s hs
  unfold makeSegments at hs
  rcases List.mem_map.mp hs with ⟨p, hp, hseg⟩
  have hchunk : p.2 ∈ chunkWaypoints (max 1 (l.length / 4)) l := by
    exact List.getElem?_mem (List.mem_enum_iff_getElem?.mp hp)
  have hne : p.2 ≠ [] := chunkWaypoints_ne_nil _ l p.2 hchunk
  have : s.waypoints = p.2 := by rw [← hseg]
  rw [this]
  exact List.length_pos.mpr hne

/-- Concrete stand-in pairwise distance used in closed statements (the
source's haversine is transcendental; segmentation structure, waypoint
counts and singleton-segment distances are independent of the metric). -/
def flatDist (a b : Waypoint) : ℚ :=
  |a.latitude - b.latitude| + |a.longitude - b.longitude|

/-- New York waypoint row from the sample reference data. -/
def cwNY : Waypoint := ⟨"WP_001", "Port", 40, -74, some "New York"⟩

/-- Cape Town waypoint row from the sample reference data. -/
def cwCT : Waypoint := ⟨"WP_004", "Port", -33, 18, some "Cape Town"⟩

/-- Witness for the segmentation non-emptiness theorem at a concrete
single-waypoint route. -/
theorem segmentation_segments_nonempty_witness :
    1 ≤ (Segment.mk "R_001_seg_1" [cwNY] [(40, -74)] 0).waypoints.length := by
  refine segmentation_segments_nonempty flatDist "R_001" [cwNY] _ ?_
  norm_num [makeSegments, chunkWaypoints, List.enum, pathDistance, cwNY]
  decide

/-- C6 counterexample: a 2-waypoint route (as every route in the sample
reference data) is enriched to exactly 4 waypoints, and
`points_per_segment = max(1, 4 // 4) = 1` slices it into four
single-waypoint segments, each with `distance_nm = 0` — so segments are
NOT guaranteed at least one waypoint pair, and degenerate zero-distance
segments do occur. -/
theorem segmentation_counterexample :
    ¬ (∀ s ∈ makeSegments flatDist "R_001" (enrich [cwNY, cwCT]),
        2 ≤ s.waypoints.length)
    ∧ (enrich [cwNY, cwCT]).length = 4
    ∧ (makeSegments flatDist "R_001" (enrich [cwNY, cwCT])).map
        (fun s => s.waypoints.length) = [1, 1, 1, 1]
    ∧ (makeSegments flatDist "R_001" (enrich [cwNY, cwCT])).map
        (fun s => s.distance_nm) = [0, 0, 0, 0] := by
  have hlen : (makeSegments flatDist "R_001" (enrich [cwNY, cwCT])).map
      (fun s => s.waypoints.length) = [1, 1, 1, 1] := by
    norm_num [makeSegments, chunkWaypoints, enrich, enrichLoop,
      interpolatePoints, cwNY, cwCT, List.range_succ, List.enum]
  refine ⟨?_, ?_, hlen, ?_⟩
  · intro h
    have hall : ∀ n ∈ [1, 1, 1, 1], 2 ≤ n := by
      rw [← hlen]
      intro n hn
      rcases List.mem_map.mp hn with ⟨s, hs, rfl⟩
      exact h s hs
    have := hall 1 (by simp)
    omega
  · norm_num [enrich, enrichLoop, interpolatePoints, cwNY, cwCT,
      List.range_succ]
  · norm_num [makeSegments, chunkWaypoints, enrich, enrichLoop,
      pathDistance, interpolatePoints, cwNY, cwCT, List.range_succ,
      List.enum]

/-! ## Route lookup and request dispatch
(`find_routes_between_ports` and `ForecastAgent.analyze_routes`) -/

/-- A row of the `port_to_port_routes` reference table, with its
waypoint-id list already split on commas. -/
structure RawRoute where
  route_id : String
  origin_port : String
  destination_port : String
  route_type : String
  distance_nm : Option ℚ
  waypoint_ids : List String
deriving DecidableEq, Repr

/-- The per-route dictionary placed in `route_details`. -/
structure RouteDetail where
  route_id : String
  route_type : String
  total_distance_nm : ℚ
  waypoint_count : ℕ
  segments : List Segment
  waypoints : List Waypoint
deriving DecidableEq, Repr

/-- Waypoint-id resolution against the waypoint table: ids with no
matching row are silently skipped (`if not wp.empty`). -/
def resolveWaypoints (lookup : String → Option Waypoint) (ids : List String) :
    List Waypoint :=
  ids.filterMap lookup

/-- The per-row body of the `find_routes_between_ports` loop: fewer than 2
resolved waypoints drops the candidate (`continue`); otherwise the list is
enriched, segmented, and `total_distance_nm` is the authoritative table
value when present, else the sum of segment distances. -/
def processRoute (d : Waypoint → Waypoint → ℚ)
    (lookup : String → Option Waypoint) (r : RawRoute) : Option RouteDetail :=
  let wps := resolveWaypoints lookup r.waypoint_ids
  if wps.length < 2 then none
  else
    let enriched := enrich wps
    let segs := makeSegments d r.route_id enriched
    let total := match r.distance_nm with
      | some x => x
      | none => (segs.map (fun s => s.distance_nm)).sum
    some ⟨r.route_id, r.route_type, total, enriched.length, segs, enriched⟩

/-- `find_routes_between_ports`: filter the route table on origin and
destination, then process each matching row (dropped rows simply do not
appear in the output). -/
def findRoutesBetweenPorts (d : Waypoint → Waypoint → ℚ)
    (lookup : String → Option Waypoint) (tbl : List RawRoute)
    (origin dest : String) : List RouteDetail :=
  (tbl.filter (fun r => r.origin_port == origin
      && r.destination_port == dest)).filterMap (processRoute d lookup)

/-- The request-level result shape of `ForecastAgent.analyze_routes`:
either a failure dictionary (its `error` string) or a success carrying the
processed routes (the downstream analysis/scoring of a success is modelled
separately). -/
inductive AnalyzeOutcome where
  | failed (error : String)
  | success (routes : List RouteDetail)
deriving DecidableEq, Repr

/-- The dispatch prefix of `analyze_routes`: unknown carrier fails with
`"Carrier {id} not found"`; an empty route list — whether because no table
row matched or because every matching row was dropped — fails with
`"No routes found between {origin} and {destination}"`. -/
def analyzeRoutesOutcome (d : Waypoint → Waypoint → ℚ)
    (lookup : String → Option Waypoint) (carrierLookup : String → Option ℚ)
    (tbl : List RawRoute) (origin dest carrierId : String) : AnalyzeOutcome :=
  match carrierLookup carrierId with
  | none => .failed ("Carrier " ++ carrierId ++ " not found")
  | some _ =>
      let routes := findRoutesBetweenPorts d lookup tbl origin dest
      if routes.isEmpty then
        .failed ("No routes found between " ++ origin ++ " and " ++ dest)
      else .success routes

lemma interpolatePoints_length (np : ℕ) (s t : Waypoint) :
    (interpolatePoints np s t).length = np := by
  simp [interpolatePoints]

lemma enrichLoop_length (np : ℕ) :
    ∀ (p : Waypoint) (ws : List Waypoint),
      (enrichLoop np p ws).length = ws.length * (np + 1) := by
  intro p ws
  induction ws generalizing p with
  | nil => simp [enrichLoop]
  | cons w ws ih =>
      simp only [enrichLoop, List.length_append, List.length_cons, ih w,
        interpolatePoints_length]
      ring

lemma enrich_length_ge (l : List Waypoint) (h : 2 ≤ l.length) :
    4 ≤ (enrich l).length := by
  unfold enrich
  by_cases h4 : 4 ≤ l.length
  · simp [h4]
  · rw [if_neg h4]
    cases l with
    | nil => simp at h
    | cons w ws =>
        simp only [List.length_cons, enrichLoop_length]
        have hn : ws.length = 1 ∨ ws.length = 2 := by
          simp only [List.length_cons] at h h4
          omega
        rcases hn with hn | hn <;> rw [hn] <;> simp [hn]

/-- C9 (amended): a candidate with fewer than 2 usable waypoints is
silently dropped (`processRoute` returns `none`, no failure), every route
that does appear in the output has at least 4 enriched waypoints, and when
every candidate is dropped the request fails with exactly the same
`"No routes found between ..."` error that is returned when no candidate
exists — there is no distinct `EmptyCandidateSet` failure kind. -/
theorem insufficient_geometry_policy (d : Waypoint → Waypoint → ℚ)
    (lookup : String → Option Waypoint) (tbl : List RawRoute)
    (origin dest : String) :
    (∀ rd ∈ findRoutesBetweenPorts d lookup tbl origin dest,
        4 ≤ rd.waypoint_count)
    ∧ (∀ r : RawRoute, (resolveWaypoints lookup r.waypoint_ids).length < 2 →
        processRoute d lookup r = none)
    ∧ (∀ (carrierLookup : String → Option ℚ) (cid : String) (speed : ℚ),
        carrierLookup cid = some speed →
        findRoutesBetweenPorts d lookup tbl origin dest = [] →
        analyzeRoutesOutcome d lookup carrierLookup tbl origin dest cid
          = .failed ("No routes found between " ++ origin ++ " and " ++ dest)) := by
  refine ⟨?_, ?_, ?_⟩
  · intro rd hrd
    rcases List.mem_filterMap.mp hrd with ⟨r, _, hr⟩
    unfold processRoute at hr
    by_cases hlen : (resolveWaypoints lookup r.waypoint_ids).length < 2
    · simp [hlen] at hr
    · simp only [hlen, if_false, Option.some.injEq] at hr
      have hcount : rd.waypoint_count
          = (enrich (resolveWaypoints lookup r.waypoint_ids)).length := by
        rw [← hr]
      rw [hcount]
      exact enrich_length_ge _ (by omega)
  · intro r hlt
    unfold processRoute
    simp [hlt]
  · intro carrierLookup cid speed hc hempty
    unfold analyzeRoutesOutcome
    rw [hc]
    simp [hempty]

/-- Waypoint table of the sample reference data restricted to the two rows
the closed statements use. -/
def sampleLookup (id : String) : Option Waypoint :=
  if id == "WP_001" then some cwNY
  else if id == "WP_004" then some cwCT
  else none

/-- Carrier table lookup of the sample reference data (carrier `CR_0001`,
22 knots). -/
def sampleCarrier (cid : String) : Option ℚ :=
  if cid == "CR_0001" then some 22 else none

/-- A candidate between the two ports whose geometry resolves to a single
waypoint — usable geometry exists in the table but is insufficient. -/
def badRouteNYCT : RawRoute :=
  ⟨"R_001", "New York", "Cape Town", "Transatlantic", some 6840, ["WP_001"]⟩

/-- Witness for the insufficient-geometry policy theorem: the
single-waypoint candidate is dropped without failing. -/
theorem insufficient_geometry_policy_witness :
    processRoute flatDist sampleLookup badRouteNYCT = none :=
  (insufficient_geometry_policy flatDist sampleLookup [badRouteNYCT]
      "New York" "Cape Town").2.1 badRouteNYCT (by decide)

/-- C9 counterexample: the request whose only candidate was dropped for
insufficient geometry fails with exactly the same outcome as the request
for which no candidate row exists at all — `EmptyCandidateSet` is NOT
distinct from `NoRoutesFound`. -/
theorem empty_candidate_failure_counterexample :
    analyzeRoutesOutcome flatDist sampleLookup sampleCarrier [badRouteNYCT]
        "New York" "Cape Town" "CR_0001"
      = AnalyzeOutcome.failed "No routes found between New York and Cape Town"
    ∧ analyzeRoutesOutcome flatDist sampleLookup sampleCarrier []
        "New York" "Cape Town" "CR_0001"
      = AnalyzeOutcome.failed "No routes found between New York and Cape Town"
    ∧ ([badRouteNYCT] : List RawRoute) ≠ [] := by
  refine ⟨?_, ?_, by simp⟩ <;>
    simp [analyzeRoutesOutcome, sampleCarrier, findRoutesBetweenPorts,
      processRoute, resolveWaypoints, sampleLookup, badRouteNYCT]

/-! ## Weather simulator (`get_weather_forecast`, `get_extended_forecast`)

Random draws are modelled per coordinate by a `WeatherDraws` record
(choice draws as indices into the fixed string lists); the presentational
`description` string is omitted. -/

/-- One coordinate's random draws in `get_weather_forecast`. -/
structure WeatherDraws where
  condIdx : ℕ
  dTemp : ℚ
  humidity : ℤ
  windBase : ℚ
  waveBase : ℚ
  visBase : ℚ
  pressure : ℤ
  seaIdx : ℕ
deriving DecidableEq, Repr

/-- The fixed list of weather conditions. -/
def weatherConditionsList : List String :=
  ["Clear", "Partly Cloudy", "Overcast", "Light Rain", "Heavy Rain",
   "Fog", "Stormy"]

/-- The fixed list of sea states. -/
def seaStatesList : List String :=
  ["Calm", "Slight", "Moderate", "Rough", "Very Rough", "High"]

/-- `severity_factor`: 2.5 for Stormy, 2.0 for Heavy Rain, 1.5 for Fog,
else 1.0. -/
def severityFactor (c : String) : ℚ :=
  if c = "Stormy" then 5/2
  else if c = "Heavy Rain" then 2
  else if c = "Fog" then 3/2
  else 1

/-- A per-coordinate forecast (metrics plus warnings). -/
structure PointForecast where
  lat : ℚ
  lon : ℚ
  condition : String
  temperature_celsius : ℚ
  humidity_percent : ℤ
  wind_speed_knots : ℚ
  wave_height_meters : ℚ
  visibility_km : ℚ
  pressure_mb : ℤ
  sea_state : String
  warnings : List String
deriving DecidableEq, Repr

/-- The per-coordinate body of `get_weather_forecast`'s loop. -/
def mkPointForecast (dr : WeatherDraws) (lat lon : ℚ) : PointForecast :=
  let cond := weatherConditionsList.getD dr.condIdx "Clear"
  let sf := severityFactor cond
  let wind := dr.windBase * sf
  let wave := dr.waveBase * sf
  let vis := dr.visBase / sf
  { lat := lat
    lon := lon
    condition := cond
    temperature_celsius := (25 - |lat| / 4) + dr.dTemp
    humidity_percent := dr.humidity
    wind_speed_knots := wind
    wave_height_meters := wave
    visibility_km := vis
    pressure_mb := dr.pressure
    sea_state := seaStatesList.getD dr.seaIdx "Calm"
    warnings :=
      (if wind > 40 then ["High wind warning"] else [])
        ++ (if wave > 5 then ["High seas warning"] else [])
        ++ (if vis < 2 then ["Low visibility warning"] else [])
        ++ (if cond = "Stormy" then ["Storm warning - consider route diversion"]
            else []) }

/-- Number of occurrences of `s` in `l` (Python `list.count`). -/
def countOcc (l : List String) (s : String) : ℕ :=
  (l.filter (fun x => x == s)).length

/-- `max(set(conditions), key=conditions.count)`: a condition of maximal
count.  Python iterates the set in unspecified order, so ties are resolved
arbitrarily there; this model keeps the earliest-seen maximal condition. -/
def predominantCondition (l : List String) : String :=
  l.dedup.foldl (fun best c => if countOcc l c > countOcc l best then c else best)
    (l.headD "Unknown")

/-- The aggregate summary of one segment's weather. -/
structure WeatherSummary where
  predominant_condition : String
  average_wind_speed : ℚ
  average_wave_height : ℚ
  risk_level : Level
deriving DecidableEq, Repr

/-- The full return value of `get_weather_forecast`. -/
structure WeatherReport where
  segment_id : String
  forecast_day : ℤ
  points_analyzed : ℕ
  forecasts : List PointForecast
  segment_summary : WeatherSummary
deriving DecidableEq, Repr

/-- `get_weather_forecast(coordinates, forecast_date, segment_id)`:
per-point synthetic forecasts, then a segment summary with
`risk_level = High if avg_wind>35 or avg_waves>4; Medium if avg_wind>25 or
avg_waves>3; else Low`.  An empty coordinate list yields averages 0,
predominant condition "Unknown" and risk Low (the source guards every
aggregate with `if forecasts else ...`). -/
def getWeatherForecast (sid : String) (coords : List (ℚ × ℚ)) (day : ℤ)
    (draws : ℕ → WeatherDraws) : WeatherReport :=
  let forecasts := coords.enum.map (fun p =>
    mkPointForecast (draws p.1) p.2.1 p.2.2)
  let avgWind : ℚ := if forecasts.length = 0 then 0
    else (forecasts.map (fun f => f.wind_speed_knots)).sum / forecasts.length
  let avgWaves : ℚ := if forecasts.length = 0 then 0
    else (forecasts.map (fun f => f.wave_height_meters)).sum / forecasts.length
  let risk : Level :=
    if avgWind > 35 ∨ avgWaves > 4 then .high
    else if avgWind > 25 ∨ avgWaves > 3 then .medium
    else .low
  let predominant := if forecasts.isEmpty then "Unknown"
    else predominantCondition (forecasts.map (fun f => f.condition))
  ⟨sid, day, coords.length, forecasts, ⟨predominant, avgWind, avgWaves, risk⟩⟩

/-- One entry of the extended (route-walk) weather forecast. -/
structure ExtendedForecastEntry where
  report : WeatherReport
  hours_from_departure : ℚ
  arrival_day : ℤ
deriving DecidableEq, Repr

/-- The loop of `get_extended_forecast`: the walk tracks cumulative
DISTANCE and divides by the BASE vessel speed
(`hours_to_segment = cumulative_distance / vessel_speed_knots if
vessel_speed_knots > 0 else 0`); the forecast date passed to the simulator
is the departure day plus `⌊hours/24⌋`. -/
def getExtendedForecastAux (draws : ℕ → ℕ → WeatherDraws) (speed : ℚ)
    (depDay : ℤ) : ℕ → ℚ → List Segment → List ExtendedForecastEntry
  | _, _, [] => []
  | i, cumDist, seg :: rest =>
      let hoursToSegment : ℚ := if 0 < speed then cumDist / speed else 0
      let segDay := depDay + ⌊hoursToSegment / 24⌋
      let report := getWeatherForecast seg.segment_id seg.coordinates segDay
        (draws i)
      ⟨report, hoursToSegment, segDay⟩ ::
        getExtendedForecastAux draws speed depDay (i + 1)
          (cumDist + seg.distance_nm) rest

/-- `get_extended_forecast(route_segments, departure_date,
vessel_speed_knots)`. -/
def getExtendedForecast (segs : List Segment) (depDay : ℤ) (speed : ℚ)
    (draws : ℕ → ℕ → WeatherDraws) : List ExtendedForecastEntry :=
  getExtendedForecastAux draws speed depDay 0 0 segs

/-! ## Traffic simulator (`analyze_maritime_traffic`, `get_traffic_forecast`)

`analyze_maritime_traffic` divides by `len(coordinates)` with no guard, so
an empty coordinate list raises `ZeroDivisionError`; that is modelled with
`Except String`.  The constant presentational fields
(`recommended_speed_adjustment`, `alternative_time_windows`) are omitted. -/

/-- The random draws of one `analyze_maritime_traffic` call:
`randint(-10, 20)` on the vessel count, `uniform(2, 5)` (used when
congestion is High), `uniform(0.5, 2)` (used when Medium),
`uniform(0.8, 1.5)` (port proximity, unused downstream) and per-hour
`uniform(0.8, 1.2)` factors. -/
structure TrafficDraws where
  dVessels : ℤ
  redHigh : ℚ
  redMed : ℚ
  portProx : ℚ
  hourly : ℕ → ℚ

/-- `traffic_summary` of the analysis. -/
structure TrafficSummary where
  total_vessels_24h : ℤ
  vessels_by_type : List (String × ℤ)
  congestion_level : Level
  traffic_density : ℚ
  average_speed_reduction_knots : ℚ
deriving DecidableEq, Repr

/-- One row of `hourly_distribution`. -/
structure HourlyEntry where
  hour : ℕ
  vessel_count : ℤ
  congestion : String
deriving DecidableEq, Repr

/-- `navigation_impact` of the analysis. -/
structure NavigationImpact where
  collision_risk : Level
  estimated_delay_minutes : ℤ
deriving DecidableEq, Repr

/-- The full return value of `analyze_maritime_traffic`. -/
structure TrafficAnalysis where
  segment_id : String
  analysis_day : ℤ
  coordinates_analyzed : ℕ
  traffic_summary : TrafficSummary
  hourly_distribution : List HourlyEntry
  navigation_impact : NavigationImpact
  alerts : List String
deriving DecidableEq, Repr

/-- `analyze_maritime_traffic(segment_id, coordinates, analysis_date)`.
With an empty coordinate list the very first statement
(`lat_avg = sum(...)/len(coordinates)`) raises `ZeroDivisionError`.
Otherwise: major-lane detection from the average latitude, vessel count
`base ± randint`, congestion `High > 60 / Medium > 40 / else Low`, density
`total/(len(coordinates)*10)`, speed reduction drawn by congestion tier,
hourly distribution, collision risk (`density > 8 ⇒ High`, else
`density > 5` with High congestion `⇒ Medium`), and an `alerts` list that
is ALWAYS `[]` because the statements that would populate it sit after the
`return`. -/
def analyzeMaritimeTrafficE (sid : String) (coords : List (ℚ × ℚ))
    (day : ℤ) (dr : TrafficDraws) : Except String TrafficAnalysis :=
  if coords.length = 0 then
    .error "ZeroDivisionError: division by zero"
  else
    let latAvg : ℚ := (coords.map Prod.fst).sum / coords.length
    let isMajorLane :=
      (-10 < latAvg ∧ latAvg < 10) ∨ (30 < latAvg ∧ latAvg < 40)
        ∨ (-35 < latAvg ∧ latAvg < -25)
    let baseTraffic : ℤ := if isMajorLane then 50 else 20
    let totalVessels : ℤ := baseTraffic + dr.dVessels
    let vesselsByType : List (String × ℤ) :=
      [("Container", truncQ ((totalVessels : ℚ) * (2/5))),
       ("Tanker", truncQ ((totalVessels : ℚ) * (1/4))),
       ("Bulk Carrier", truncQ ((totalVessels : ℚ) * (1/5))),
       ("General Cargo", truncQ ((totalVessels : ℚ) * (1/10))),
       ("Other", truncQ ((totalVessels : ℚ) * (1/20)))]
    let congestion : Level :=
      if totalVessels > 60 then .high
      else if totalVessels > 40 then .medium
      else .low
    let trafficDensity : ℚ := (totalVessels : ℚ) / (coords.length * 10)
    let avgSpeedReduction : ℚ :=
      if congestion = .high then dr.redHigh
      else if congestion = .medium then dr.redMed
      else 0
    let hourly : List HourlyEntry := (List.range 24).map (fun hour =>
      let mult : ℚ :=
        if 6 ≤ hour ∧ hour ≤ 18 then 6/5
        else if 22 ≤ hour ∨ hour ≤ 4 then 7/10
        else 1
      let hc := truncQ ((totalVessels : ℚ) / 24 * mult * dr.hourly hour)
      ⟨hour, hc, if (hc : ℚ) > (totalVessels : ℚ) / 20 then "High" else "Normal"⟩)
    let collisionRisk : Level :=
      if trafficDensity > 8 then .high
      else if trafficDensity > 5 ∧ congestion = .high then .medium
      else .low
    .ok { segment_id := sid
          analysis_day := day
          coordinates_analyzed := coords.length
          traffic_summary :=
            ⟨totalVessels, vesselsByType, congestion, trafficDensity,
              avgSpeedReduction⟩
          hourly_distribution := hourly
          navigation_impact :=
            ⟨collisionRisk, truncQ (avgSpeedReduction * 60 / 20)⟩
          alerts := [] }

/-- One entry of the traffic route walk (`get_traffic_forecast`). -/
structure TrafficForecastEntry where
  traffic : TrafficAnalysis
  hours_from_departure : ℚ
  arrival_day : ℤ
  effective_speed_knots : ℚ

/-- The loop of `get_traffic_forecast`: per segment, analyze traffic at
`departure + cumulative_hours`, record `hours_from_departure` BEFORE the
update, compute `effective_speed = max(base_speed − reduction, 10)` and
advance the clock by `distance / effective_speed`.  A raised
`ZeroDivisionError` propagates (aborting the remaining segments). -/
def getTrafficForecastAux (draws : ℕ → TrafficDraws) (speed : ℚ)
    (depDay : ℤ) : ℕ → ℚ → List Segment →
    Except String (List TrafficForecastEntry)
  | _, _, [] => .ok []
  | i, cum, seg :: rest =>
      match analyzeMaritimeTrafficE seg.segment_id seg.coordinates
          (depDay + ⌊cum / 24⌋) (draws i) with
      | .error e => .error e
      | .ok t =>
          let eff := max (speed - t.traffic_summary.average_speed_reduction_knots) 10
          match getTrafficForecastAux draws speed depDay (i + 1)
              (cum + seg.distance_nm / eff) rest with
          | .error e => .error e
          | .ok restE =>
              .ok (⟨t, cum, depDay + ⌊cum / 24⌋, eff⟩ :: restE)

/-- `get_traffic_forecast(route_segments, departure_date,
vessel_speed_knots)`. -/
def getTrafficForecastE (segs : List Segment) (depDay : ℤ) (speed : ℚ)
    (draws : ℕ → TrafficDraws) : Except String (List TrafficForecastEntry) :=
  getTrafficForecastAux draws speed depDay 0 0 segs

/-- C10: on every input on which `analyze_maritime_traffic` returns (i.e.
does not raise), the returned `alerts` list is empty — the alert-population
statements after the `return` are unreachable, so no collision-risk,
congestion or density alert is ever emitted. -/
theorem traffic_alerts_always_empty (sid : String) (coords : List (ℚ × ℚ))
    (day : ℤ) (dr : TrafficDraws) :
    match analyzeMaritimeTrafficE sid coords day dr with
    | .ok t => t.alerts = []
    | .error _ => True := by
  unfold analyzeMaritimeTrafficE
  by_cases h : coords.length = 0 <;> simp [h]

lemma getTrafficForecastAux_spec (draws : ℕ → TrafficDraws) (speed : ℚ)
    (depDay : ℤ) :
    ∀ (segs : List Segment) (i : ℕ) (cum : ℚ)
      (entries : List TrafficForecastEntry),
      getTrafficForecastAux draws speed depDay i cum segs = .ok entries →
      (∀ s ∈ segs, 0 ≤ s.distance_nm) →
      entries.length = segs.length
      ∧ (∀ e ∈ entries, e.effective_speed_knots
          = max (speed - e.traffic.traffic_summary.average_speed_reduction_knots) 10)
      ∧ (∀ hne : entries ≠ [], (entries.head hne).hours_from_departure = cum)
      ∧ List.Chain' (fun p q =>
          p.2.hours_from_departure ≤ q.2.hours_from_departure
          ∧ (0 < p.1.distance_nm →
              p.2.hours_from_departure < q.2.hours_from_departure))
        (segs.zip entries) := by
  intro segs
  induction segs with
  | nil =>
      intro i cum entries hok hd
      rw [getTrafficForecastAux] at hok
      cases hok
      exact ⟨rfl, by simp, fun hne => absurd rfl hne, by simp⟩
  | cons seg rest ih =>
      intro i cum entries hok hd
      rw [getTrafficForecastAux] at hok
      cases hA : analyzeMaritimeTrafficE seg.segment_id seg.coordinates
          (depDay + ⌊cum / 24⌋) (draws i) with
      | error e => rw [hA] at hok; simp at hok
      | ok t =>
          rw [hA] at hok
          simp only at hok
          cases hR : getTrafficForecastAux draws speed depDay (i + 1)
              (cum + seg.distance_nm /
                max (speed - t.traffic_summary.average_speed_reduction_knots) 10)
              rest with
          | error e => rw [hR] at hok; simp at hok
          | ok restE =>
              rw [hR] at hok
              simp only [Except.ok.injEq] at hok
              subst hok
              obtain ⟨hlen, heffs, hhead, hchain⟩ := ih (i + 1)
                (cum + seg.distance_nm /
                  max (speed - t.traffic_summary.average_speed_reduction_knots) 10)
                restE hR (fun s hs => hd s (List.mem_cons_of_mem _ hs))
              have heffpos : (0 : ℚ)
                  < max (speed - t.traffic_summary.average_speed_reduction_knots) 10 :=
                lt_of_lt_of_le (by norm_num) (le_max_right _ _)
              have hdist0 : 0 ≤ seg.distance_nm := hd seg (List.mem_cons_self _ _)
              refine ⟨by simp [hlen], ?_, fun _ => rfl, ?_⟩
              · intro e he
                rcases List.mem_cons.mp he with h | h
                · subst h; rfl
                · exact heffs e h
              · rw [List.zip_cons_cons]
                refine List.chain'_cons'.mpr ⟨?_, hchain⟩
                intro b hb
                cases rest with
                | nil =>
                    have : restE = [] := List.length_eq_zero.mp (by simp [hlen])
                    subst this
                    simp at hb
                | cons r rs =>
                    cases restE with
                    | nil => simp at hlen
                    | cons e' es =>
                        rw [List.zip_cons_cons] at hb
                        simp only [List.head?_cons, Option.mem_some_iff] at hb
                        subst hb
                        have hh : e'.hours_from_departure
                            = cum + seg.distance_nm /
                              max (speed - t.traffic_summary.average_speed_reduction_knots) 10 :=
                          hhead (by simp)
                        constructor
                        · have h0 : 0 ≤ seg.distance_nm /
                              max (speed - t.traffic_summary.average_speed_reduction_knots) 10 :=
                            div_nonneg hdist0 (le_of_lt heffpos)
                          show (cum : ℚ) ≤ e'.hours_from_departure
                          rw [hh]; linarith
                        · intro hpos
                          have h0 : 0 < seg.distance_nm /
                              max (speed - t.traffic_summary.average_speed_reduction_knots) 10 :=
                            div_pos hpos heffpos
                          show (cum : ℚ) < e'.hours_from_departure
                          rw [hh]; linarith

/-- C5: in every successful traffic walk, each entry's effective speed is
`max(base_speed − that segment's drawn speed reduction, 10 kt)`, and the
recorded `hours_from_departure` values are non-decreasing across segments,
strictly increasing whenever the preceding segment's distance is positive
(route distances are non-negative sums of great-circle legs). -/
theorem traffic_walk_effective_speed_and_monotone (segs : List Segment)
    (depDay : ℤ) (speed : ℚ) (draws : ℕ → TrafficDraws)
    (hd : ∀ s ∈ segs, 0 ≤ s.distance_nm) :
    match getTrafficForecastE segs depDay speed draws with
    | .ok entries =>
        (∀ e ∈ entries, e.effective_speed_knots
          = max (speed - e.traffic.traffic_summary.average_speed_reduction_knots) 10)
        ∧ List.Chain' (fun p q =>
            p.2.hours_from_departure ≤ q.2.hours_from_departure
            ∧ (0 < p.1.distance_nm →
                p.2.hours_from_departure < q.2.hours_from_departure))
          (segs.zip entries)
    | .error _ => True := by
  cases hok : getTrafficForecastE segs depDay speed draws with
  | error e => exact trivial
  | ok entries =>
      obtain ⟨_, heff, _, hchain⟩ :=
        getTrafficForecastAux_spec draws speed depDay segs 0 0 entries hok hd
      exact ⟨heff, hchain⟩

/-- First concrete segment for the traffic-walk witness: a major-lane
3000 nm segment. -/
def segSample1 : Segment := ⟨"R_001_seg_1", [], [(35, 10), (35, 20)], 3000⟩

/-- Second concrete segment for the traffic-walk witness: an open-ocean
500 nm segment. -/
def segSample2 : Segment := ⟨"R_001_seg_2", [], [(50, 30)], 500⟩

/-- A concrete draw assignment: `randint = 5`, `uniform(2,5) = 3`,
`uniform(0.5,2) = 1`, proximity 1, all hourly factors 1. -/
def trafficSampleDraws : ℕ → TrafficDraws := fun _ => ⟨5, 3, 1, 1, fun _ => 1⟩

/-- Witness for the traffic-walk theorem at a concrete two-segment route
with positive distances. -/
theorem traffic_walk_monotone_witness :
    match getTrafficForecastE [segSample1, segSample2] 0 20 trafficSampleDraws with
    | .ok entries =>
        (∀ e ∈ entries, e.effective_speed_knots
          = max (20 - e.traffic.traffic_summary.average_speed_reduction_knots) 10)
        ∧ List.Chain' (fun p q =>
            p.2.hours_from_departure ≤ q.2.hours_from_departure
            ∧ (0 < p.1.distance_nm →
                p.2.hours_from_departure < q.2.hours_from_departure))
          ([segSample1, segSample2].zip entries)
    | .error _ => True :=
  traffic_walk_effective_speed_and_monotone [segSample1, segSample2] 0 20
    trafficSampleDraws (by
      intro s hs
      rcases List.mem_cons.mp hs with h | h
      · subst h; norm_num [segSample1]
      · rcases List.mem_cons.mp h with h2 | h2
        · subst h2; norm_num [segSample2]
        · cases h2)

/-- `Except` success test. -/
def isOkE {α : Type} : Except String α → Bool
  | .ok _ => true
  | .error _ => false

lemma traffic_walk_error_of_empty_segment (draws : ℕ → TrafficDraws)
    (speed : ℚ) (depDay : ℤ) :
    ∀ (segs : List Segment) (i : ℕ) (cum : ℚ),
      (∃ s ∈ segs, s.coordinates = []) →
      isOkE (getTrafficForecastAux draws speed depDay i cum segs) = false := by
  intro segs
  induction segs with
  | nil =>
      intro i cum hex
      rcases hex with ⟨s, hs, _⟩
      cases hs
  | cons seg rest ih =>
      intro i cum hex
      rcases hex with ⟨s, hs, hse⟩
      rcases List.mem_cons.mp hs with h | h
      · subst h
        have hlen : s.coordinates.length = 0 := by rw [hse]; rfl
        rw [getTrafficForecastAux]
        unfold analyzeMaritimeTrafficE
        rw [if_pos hlen]
        rfl
      · rw [getTrafficForecastAux]
        cases hA : analyzeMaritimeTrafficE seg.segment_id seg.coordinates
            (depDay + ⌊cum / 24⌋) (draws i) with
        | error e => rfl
        | ok t =>
            simp only
            cases hR : getTrafficForecastAux draws speed depDay (i + 1)
                (cum + seg.distance_nm /
                  max (speed - t.traffic_summary.average_speed_reduction_knots) 10)
                rest with
            | error e => rfl
            | ok restE =>
                have := ih (i + 1)
                  (cum + seg.distance_nm /
                    max (speed - t.traffic_summary.average_speed_reduction_knots) 10)
                  ⟨s, h, hse⟩
                rw [hR] at this
                simp [isOkE] at this

/-- C8 (amended): the weather simulator does degrade gracefully — an empty
coordinate list yields a segment summary with risk Low and predominant
condition "Unknown" and evaluation continues — but the traffic simulator
raises `ZeroDivisionError` on an empty coordinate list, and that exception
propagates out of `get_traffic_forecast`, aborting the remaining segments
of the route; it is caught only by the top-level `try/except` of
`analyze_routes`, which fails the whole request.  There is no recorded
degradation flag and no drop-route-only-when-all-segments-fail policy. -/
theorem simulator_failure_degradation_and_abort :
    (∀ (sid : String) (day : ℤ) (wdraws : ℕ → WeatherDraws),
        (getWeatherForecast sid [] day wdraws).segment_summary.risk_level
            = Level.low
        ∧ (getWeatherForecast sid [] day wdraws).segment_summary.predominant_condition
            = "Unknown")
    ∧ (∀ (segs : List Segment) (depDay : ℤ) (speed : ℚ)
        (draws : ℕ → TrafficDraws),
        (∃ s ∈ segs, s.coordinates = []) →
        isOkE (getTrafficForecastE segs depDay speed draws) = false) := by
  constructor
  · intro sid day wdraws
    constructor <;> norm_num [getWeatherForecast]
  · intro segs depDay speed draws hex
    exact traffic_walk_error_of_empty_segment draws speed depDay segs 0 0 hex

/-- A segment whose coordinate list is empty (malformed geometry). -/
def segEmptySample : Segment := ⟨"R_001_seg_2", [], [], 100⟩

/-- Witness for the degradation/abort theorem: a route with one well-formed
and one empty-coordinate segment makes the traffic walk fail. -/
theorem simulator_failure_abort_witness :
    isOkE (getTrafficForecastE [segSample1, segEmptySample] 0 20
      trafficSampleDraws) = false :=
  simulator_failure_degradation_and_abort.2 [segSample1, segEmptySample]
    0 20 trafficSampleDraws
    ⟨segEmptySample, List.mem_cons_of_mem _ (List.mem_cons_self _ _), rfl⟩

/-- C8 counterexample: with a single malformed segment (the other segment
is well-formed), the whole traffic forecast is the raised
`ZeroDivisionError` — the failing segment is NOT replaced by a Low/Unknown
contribution, evaluation of the route does not continue, and the exception
aborts the request rather than only dropping the route. -/
theorem simulator_failure_counterexample :
    getTrafficForecastE [segSample1, segEmptySample] 0 20 trafficSampleDraws
      = Except.error "ZeroDivisionError: division by zero"
    ∧ segSample1.coordinates ≠ [] := by
  constructor
  · simp [getTrafficForecastE, getTrafficForecastAux, analyzeMaritimeTrafficE,
      segSample1, segEmptySample]
  · simp [segSample1]

/-! ## News/event simulator (`NewsAnalyzerAgent`)

`generate_news_for_segment` draws 2–5 events; each event's
`center_lat = sum(...)/len(segment_coordinates)` raises
`ZeroDivisionError` on an empty coordinate list (whenever at least one
event is generated). -/

/-- Random draws for one news event (choice draws as indices). -/
structure NewsEventDraw where
  typeIdx : ℕ
  eventIdx : ℕ
  daysAgo : ℕ
  severity : Level
  durationDays : ℕ
  idNum : ℕ
  dLat : ℚ
  dLon : ℚ

/-- Random draws for one segment's news generation. -/
structure NewsDraws where
  numEvents : ℕ
  event : ℕ → NewsEventDraw

/-- The five news templates (type, headlines). -/
def newsTemplates : List (String × List String) :=
  [("geopolitical",
    ["Increased piracy activity reported", "Naval exercises announced",
     "New shipping sanctions imposed", "Port security alert issued"]),
   ("natural",
    ["Tropical storm formation detected", "Severe weather warning issued",
     "Tsunami watch in effect", "Hurricane tracking update"]),
   ("maritime",
    ["Container ship collision reported", "Major port congestion developing",
     "Oil spill cleanup underway", "Search and rescue operation ongoing"]),
   ("economic",
    ["Port workers strike announced", "New cargo restrictions implemented",
     "Fuel price surge affecting operations", "Trade route disruption expected"]),
   ("infrastructure",
    ["Canal maintenance scheduled", "Port expansion causing delays",
     "Navigation channel dredging", "Terminal equipment failure"])]

/-- `impact_map` delay hours by severity. -/
def newsDelayBase : Level → ℚ
  | .low => 1/2
  | .medium => 2
  | .high => 6
  | .critical => 24

/-- `impact_map` speed reduction by severity. -/
def newsSpeedBase : Level → ℚ
  | .low => 0
  | .medium => 2
  | .high => 5
  | .critical => 10

/-- `impact_map` risk increase by severity. -/
def newsRiskBase : Level → ℚ
  | .low => 5
  | .medium => 15
  | .high => 30
  | .critical => 50

/-- `impact_radius` by severity. -/
def newsRadius : Level → ℚ
  | .low => 50
  | .medium => 100
  | .high => 200
  | .critical => 500

/-- One generated news item (summary fields consumed downstream). -/
structure NewsItem where
  item_id : String
  event_day : ℤ
  typ : String
  headline : String
  severity : Level
  lat : ℚ
  lon : ℚ
  affected_radius_nm : ℚ
  duration_days : ℕ
  delay_hours : ℚ
  speed_reduction_knots : ℚ
  risk_increase_percent : ℚ
  viability : String
deriving DecidableEq, Repr

/-- One event of `generate_news_for_segment`: type/headline from the
templates, event date `analysis_date − days_ago`, location the segment
center plus a perturbation, impact from `impact_map` with the
category-specific amplifiers (natural ⇒ speed ×1.5, geopolitical ⇒ risk
×1.5, infrastructure ⇒ delay ×2). -/
def mkNewsItem (sid : String) (centerLat centerLon : ℚ) (day : ℤ)
    (dr : NewsEventDraw) : NewsItem :=
  let tpl := newsTemplates.getD dr.typeIdx ("geopolitical", [])
  let typ := tpl.1
  { item_id := "news_" ++ sid ++ "_" ++ toString dr.idNum
    event_day := day - dr.daysAgo
    typ := typ
    headline := tpl.2.getD dr.eventIdx ""
    severity := dr.severity
    lat := centerLat + dr.dLat
    lon := centerLon + dr.dLon
    affected_radius_nm := newsRadius dr.severity
    duration_days := dr.durationDays
    delay_hours :=
      if typ = "infrastructure" then newsDelayBase dr.severity * 2
      else newsDelayBase dr.severity
    speed_reduction_knots :=
      if typ = "natural" then newsSpeedBase dr.severity * (3/2)
      else newsSpeedBase dr.severity
    risk_increase_percent :=
      if typ = "geopolitical" then newsRiskBase dr.severity * (3/2)
      else newsRiskBase dr.severity
    viability :=
      if dr.severity = .low ∨ dr.severity = .medium then "Viable"
      else "Compromised" }

/-- `generate_news_for_segment`: raises on an empty coordinate list as
soon as one event is generated (`num_events` is drawn from
`randint(2, 5)`, so in the source it is always ≥ 2). -/
def generateNewsForSegmentE (sid : String) (coords : List (ℚ × ℚ))
    (day : ℤ) (dr : NewsDraws) : Except String (List NewsItem) :=
  if dr.numEvents ≠ 0 ∧ coords.length = 0 then
    .error "ZeroDivisionError: division by zero"
  else
    let centerLat : ℚ := (coords.map Prod.fst).sum / coords.length
    let centerLon : ℚ := (coords.map Prod.snd).sum / coords.length
    .ok ((List.range dr.numEvents).map (fun j =>
      mkNewsItem sid centerLat centerLon day (dr.event j)))

/-- One entry of the news route walk. -/
structure NewsWalkEntry where
  items : List NewsItem
  hours_from_departure : ℚ
  arrival_day : ℤ

/-- The loop of `analyze_route_news`: the walk advances the clock by
`segment_distance / vessel_speed_knots` using the BASE speed (no traffic
adjustment); a raised `ZeroDivisionError` propagates. -/
def analyzeRouteNewsAux (draws : ℕ → NewsDraws) (speed : ℚ) (depDay : ℤ) :
    ℕ → ℚ → List Segment → Except String (List NewsWalkEntry)
  | _, _, [] => .ok []
  | i, cum, seg :: rest =>
      match generateNewsForSegmentE seg.segment_id seg.coordinates
          (depDay + ⌊cum / 24⌋) (draws i) with
      | .error e => .error e
      | .ok items =>
          match analyzeRouteNewsAux draws speed depDay (i + 1)
              (cum + seg.distance_nm / speed) rest with
          | .error e => .error e
          | .ok restE => .ok (⟨items, cum, depDay + ⌊cum / 24⌋⟩ :: restE)

/-- `analyze_route_news(route_segments, departure_date, vessel_speed_knots)`
(the per-route aggregation of the returned items is not needed by the
temporal claims). -/
def analyzeRouteNewsE (segs : List Segment) (depDay : ℤ) (speed : ℚ)
    (draws : ℕ → NewsDraws) : Except String (List NewsWalkEntry) :=
  analyzeRouteNewsAux draws speed depDay 0 0 segs

/-! ## Temporal propagation: the three simulator walks (C4) -/

/-- The day (the `strftime("%Y-%m-%d")` value) passed to the weather
simulator for each segment. -/
def weatherArrivalDays (segs : List Segment) (depDay : ℤ) (speed : ℚ)
    (wdraws : ℕ → ℕ → WeatherDraws) : List ℤ :=
  (getExtendedForecast segs depDay speed wdraws).map (fun e => e.arrival_day)

/-- The day passed to the traffic simulator for each segment. -/
def trafficArrivalDaysE (segs : List Segment) (depDay : ℤ) (speed : ℚ)
    (draws : ℕ → TrafficDraws) : Except String (List ℤ) :=
  match getTrafficForecastE segs depDay speed draws with
  | .error e => .error e
  | .ok l => .ok (l.map (fun e => e.arrival_day))

/-- The day passed to the news generator for each segment. -/
def newsArrivalDaysE (segs : List Segment) (depDay : ℤ) (speed : ℚ)
    (draws : ℕ → NewsDraws) : Except String (List ℤ) :=
  match analyzeRouteNewsE segs depDay speed draws with
  | .error e => .error e
  | .ok l => .ok (l.map (fun e => e.arrival_day))

/-- Traffic draws forcing High congestion on the major-lane segment:
`randint = 20` (70 vessels) and `uniform(2,5) = 5`. -/
def c4TrafficDraws : ℕ → TrafficDraws := fun _ => ⟨20, 5, 1, 1, fun _ => 1⟩

/-- Arbitrary concrete weather draws (the walk's dates do not depend on
them). -/
def c4WeatherDraws : ℕ → ℕ → WeatherDraws :=
  fun _ _ => ⟨0, 0, 50, 10, 1, 10, 1000, 0⟩

/-- Arbitrary concrete news draws (2 events per segment, all Low). -/
def c4NewsDraws : ℕ → NewsDraws :=
  fun _ => ⟨2, fun _ => ⟨0, 0, 1, .low, 1, 0, 0, 0⟩⟩

/-- C4 counterexample: on a 3000 nm major-lane segment followed by a
second segment, at base speed 20 kt with High congestion drawn (speed
reduction 5 kt), the weather and news walks project the second segment at
departure + 150 h (day 6) while the traffic walk projects it at
departure + 200 h (day 8): the three simulators are NOT invoked with the
same projected date, because only the traffic walk uses traffic-adjusted
effective speeds — weather and news use the base speed. -/
theorem propagation_dates_counterexample :
    weatherArrivalDays [segSample1, segSample2] 0 20 c4WeatherDraws = [0, 6]
    ∧ newsArrivalDaysE [segSample1, segSample2] 0 20 c4NewsDraws
        = .ok [0, 6]
    ∧ trafficArrivalDaysE [segSample1, segSample2] 0 20 c4TrafficDraws
        = .ok [0, 8]
    ∧ ([0, 6] : List ℤ) ≠ [0, 8] := by
  refine ⟨?_, ?_, ?_, by simp⟩
  · norm_num [weatherArrivalDays, getExtendedForecast, getExtendedForecastAux,
      segSample1, segSample2]
  · norm_num [newsArrivalDaysE, analyzeRouteNewsE, analyzeRouteNewsAux,
      generateNewsForSegmentE, segSample1, segSample2, c4NewsDraws]
  · norm_num [trafficArrivalDaysE, getTrafficForecastE, getTrafficForecastAux,
      analyzeMaritimeTrafficE, segSample1, segSample2, c4TrafficDraws]

/-- The traffic summary (and hence the drawn speed reduction) does not
depend on the analysis date: the date only lands in the `analysis_date`
output field. -/
lemma analyzeMaritimeTrafficE_day_shift (sid : String)
    (coords : List (ℚ × ℚ)) (day : ℤ) (dr : TrafficDraws) :
    analyzeMaritimeTrafficE sid coords day dr
      = (analyzeMaritimeTrafficE sid coords 0 dr).map
          (fun t => { t with analysis_day := day }) := by
  unfold analyzeMaritimeTrafficE
  by_cases h : coords.length = 0 <;> simp [h, Except.map]

/-- Decidable side condition: analyzing this segment with these draws
succeeds and draws a speed reduction of 0. -/
def reductionIsZero (seg : Segment) (dr : TrafficDraws) : Bool :=
  match analyzeMaritimeTrafficE seg.segment_id seg.coordinates 0 dr with
  | .ok t => t.traffic_summary.average_speed_reduction_knots == 0
  | .error _ => false

lemma reductionIsZero_spec (seg : Segment) (dr : TrafficDraws)
    (h : reductionIsZero seg dr = true) (day : ℤ) :
    ∃ t, analyzeMaritimeTrafficE seg.segment_id seg.coordinates day dr = .ok t
      ∧ t.traffic_summary.average_speed_reduction_knots = 0 := by
  unfold reductionIsZero at h
  cases h0 : analyzeMaritimeTrafficE seg.segment_id seg.coordinates 0 dr with
  | error e => rw [h0] at h; simp at h
  | ok t0 =>
      rw [h0] at h
      simp only [beq_iff_eq] at h
      refine ⟨{ t0 with analysis_day := day }, ?_, h⟩
      rw [analyzeMaritimeTrafficE_day_shift, h0]
      rfl

lemma analyzeE_ok_coords_ne (sid : String) (coords : List (ℚ × ℚ))
    (day : ℤ) (dr : TrafficDraws) (t : TrafficAnalysis)
    (h : analyzeMaritimeTrafficE sid coords day dr = .ok t) :
    coords.length ≠ 0 := by
  intro hc
  unfold analyzeMaritimeTrafficE at h
  rw [if_pos hc] at h
  cases h

lemma trafficAux_days_of_zero_reduction (tDraws : ℕ → TrafficDraws)
    (wDraws : ℕ → ℕ → WeatherDraws) (speed : ℚ) (hspeed : 10 ≤ speed)
    (depDay : ℤ) :
    ∀ (segs : List Segment) (i : ℕ) (cumDist : ℚ),
      (∀ (k : ℕ) (hk : k < segs.length),
        reductionIsZero (segs.get ⟨k, hk⟩) (tDraws (i + k)) = true) →
      match getTrafficForecastAux tDraws speed depDay i (cumDist / speed) segs with
      | .ok l => l.map (fun e => e.arrival_day)
          = (getExtendedForecastAux wDraws speed depDay i cumDist segs).map
              (fun e => e.arrival_day)
      | .error _ => False := by
  intro segs
  induction segs with
  | nil =>
      intro i cumDist _
      rw [getTrafficForecastAux]
      simp [getExtendedForecastAux]
  | cons seg rest ih =>
      intro i cumDist hred
      have hpos : (0 : ℚ) < speed := by linarith
      have h0 := hred 0 (by simp)
      simp only [Nat.add_zero] at h0
      obtain ⟨t, ht, htred⟩ := reductionIsZero_spec seg (tDraws i) h0
        (depDay + ⌊cumDist / speed / 24⌋)
      rw [getTrafficForecastAux, ht]
      simp only
      have heff : max (speed - t.traffic_summary.average_speed_reduction_knots) 10
          = speed := by
        rw [htred, sub_zero]
        exact max_eq_left hspeed
      rw [heff, div_add_div_same]
      have hred' : ∀ (k : ℕ) (hk : k < rest.length),
          reductionIsZero (rest.get ⟨k, hk⟩) (tDraws (i + 1 + k)) = true := by
        intro k hk
        have h2 := hred (k + 1) (by simp only [List.length_cons]; omega)
        have hidx : i + (k + 1) = i + 1 + k := by omega
        rw [hidx] at h2
        exact h2
      have hihres := ih (i + 1) (cumDist + seg.distance_nm) hred'
      cases hrec : getTrafficForecastAux tDraws speed depDay (i + 1)
          ((cumDist + seg.distance_nm) / speed) rest with
      | error e =>
          rw [hrec] at hihres
          exact hihres.elim
      | ok restL =>
          rw [hrec] at hihres
          simp only at hihres ⊢
          rw [getExtendedForecastAux]
          simp only [if_pos hpos, List.map_cons]
          rw [hihres]

lemma newsAux_days_of_nonempty (nDraws : ℕ → NewsDraws)
    (wDraws : ℕ → ℕ → WeatherDraws) (speed : ℚ) (hpos : 0 < speed)
    (depDay : ℤ) :
    ∀ (segs : List Segment) (i : ℕ) (cumDist : ℚ),
      (∀ s ∈ segs, s.coordinates.length ≠ 0) →
      match analyzeRouteNewsAux nDraws speed depDay i (cumDist / speed) segs with
      | .ok l => l.map (fun e => e.arrival_day)
          = (getExtendedForecastAux wDraws speed depDay i cumDist segs).map
              (fun e => e.arrival_day)
      | .error _ => False := by
  intro segs
  induction segs with
  | nil =>
      intro i cumDist _
      rw [analyzeRouteNewsAux]
      simp [getExtendedForecastAux]
  | cons seg rest ih =>
      intro i cumDist hco
      have hseg : seg.coordinates.length ≠ 0 :=
        hco seg (List.mem_cons_self _ _)
      have hgen : generateNewsForSegmentE seg.segment_id seg.coordinates
          (depDay + ⌊cumDist / speed / 24⌋) (nDraws i)
          = .ok ((List.range (nDraws i).numEvents).map (fun j =>
              mkNewsItem seg.segment_id
                ((seg.coordinates.map Prod.fst).sum / seg.coordinates.length)
                ((seg.coordinates.map Prod.snd).sum / seg.coordinates.length)
                (depDay + ⌊cumDist / speed / 24⌋) ((nDraws i).event j))) := by
        unfold generateNewsForSegmentE
        rw [if_neg (fun hand => hseg hand.2)]
      rw [analyzeRouteNewsAux, hgen]
      simp only
      rw [div_add_div_same]
      have hihres := ih (i + 1) (cumDist + seg.distance_nm)
        (fun s hs => hco s (List.mem_cons_of_mem _ hs))
      cases hrec : analyzeRouteNewsAux nDraws speed depDay (i + 1)
          ((cumDist + seg.distance_nm) / speed) rest with
      | error e =>
          rw [hrec] at hihres
          exact hihres.elim
      | ok restL =>
          rw [hrec] at hihres
          simp only at hihres ⊢
          rw [getExtendedForecastAux]
          simp only [if_pos hpos, List.map_cons]
          rw [hihres]

/-- C4 (amended): the three simulators are invoked through three
INDEPENDENT walks.  The weather and news walks both advance the projected
date with the base vessel speed, while only the traffic walk uses the
traffic-adjusted effective speed `max(base − reduction, 10)`.  When every
segment's drawn speed reduction is 0 and the base speed is at least the
10 kt floor, all three walks pass the same projected date to their
simulator for every segment; with nonzero reductions the traffic dates
can drift away from the weather/news dates, as the counterexample
exhibits. -/
theorem propagation_dates_amended (segs : List Segment) (depDay : ℤ)
    (speed : ℚ) (tDraws : ℕ → TrafficDraws) (wDraws : ℕ → ℕ → WeatherDraws)
    (nDraws : ℕ → NewsDraws) (hspeed : 10 ≤ speed)
    (hred : ∀ (k : ℕ) (hk : k < segs.length),
        reductionIsZero (segs.get ⟨k, hk⟩) (tDraws k) = true) :
    trafficArrivalDaysE segs depDay speed tDraws
        = .ok (weatherArrivalDays segs depDay speed wDraws)
    ∧ newsArrivalDaysE segs depDay speed nDraws
        = .ok (weatherArrivalDays segs depDay speed wDraws) := by
  have hpos : (0 : ℚ) < speed := by linarith
  constructor
  · have hredI : ∀ (k : ℕ) (hk : k < segs.length),
        reductionIsZero (segs.get ⟨k, hk⟩) (tDraws (0 + k)) = true := by
      intro k hk
      have := hred k hk
      simpa using this
    have ht := trafficAux_days_of_zero_reduction tDraws wDraws speed hspeed
      depDay segs 0 0 hredI
    rw [zero_div] at ht
    unfold trafficArrivalDaysE getTrafficForecastE
    cases hres : getTrafficForecastAux tDraws speed depDay 0 0 segs with
    | error e => rw [hres] at ht; exact ht.elim
    | ok l =>
        rw [hres] at ht
        simp only at ht ⊢
        rw [ht]
        rfl
  · have hco : ∀ s ∈ segs, s.coordinates.length ≠ 0 := by
      intro s hs
      rcases List.mem_iff_get.mp hs with ⟨k, hk⟩
      obtain ⟨t, hok, _⟩ := reductionIsZero_spec _ _ (hred k k.isLt) 0
      rw [hk] at hok
      exact analyzeE_ok_coords_ne _ _ _ _ t hok
    have hn := newsAux_days_of_nonempty nDraws wDraws speed hpos depDay
      segs 0 0 hco
    rw [zero_div] at hn
    unfold newsArrivalDaysE analyzeRouteNewsE
    cases hres : analyzeRouteNewsAux nDraws speed depDay 0 0 segs with
    | error e => rw [hres] at hn; exact hn.elim
    | ok l =>
        rw [hres] at hn
        simp only at hn ⊢
        rw [hn]
        rfl

/-- Witness for the amended propagation theorem: a single open-ocean
segment whose draws give Low congestion (25 vessels ⇒ reduction 0) at
base speed 20 kt. -/
theorem propagation_dates_amended_witness :
    trafficArrivalDaysE [segSample2] 0 20 trafficSampleDraws
        = .ok (weatherArrivalDays [segSample2] 0 20 c4WeatherDraws)
    ∧ newsArrivalDaysE [segSample2] 0 20 c4NewsDraws
        = .ok (weatherArrivalDays [segSample2] 0 20 c4WeatherDraws) :=
  propagation_dates_amended [segSample2] 0 20 trafficSampleDraws
    c4WeatherDraws c4NewsDraws (by norm_num)
    (by
      intro k hk
      have hk0 : k = 0 := by
        simp only [List.length_cons, List.length_nil] at hk
        omega
      subst hk0
      norm_num [reductionIsZero, analyzeMaritimeTrafficE, segSample2,
        trafficSampleDraws]
      decide)

end Spec2Proof
